import Mathlib

/-!
Verification of the Amazing Marvin MCP server's task aggregation and query
layer.  The Python source (`api.py`, `main.py`) is shallowly embedded: JSON
documents become association lists from field names to string values, the
CouchDB Mango selector becomes an association list of typed clauses, the
outbound HTTP collaborators become explicit environment values, and each tool
handler becomes a pure function that also returns the trace of upstream calls
it issued.
-/

namespace Marvin

/-- A JSON document, modelled as an association list from field names to
(string) values, mirroring a Python `dict`. -/
def Doc := List (String × String)

instance : DecidableEq Doc := inferInstanceAs (DecidableEq (List (String × String)))

instance : Membership (String × String) Doc := inferInstanceAs (Membership _ (List _))

instance (x : String × String) (d : Doc) : Decidable (x ∈ d) :=
  List.instDecidableMemOfLawfulBEq x d

/-- `d.get k` models Python `d.get(k)`: the value at `k`, if present. -/
def Doc.get (d : Doc) (k : String) : Option String :=
  (List.find? (fun kv => kv.1 == k) d).map Prod.snd

/-- `d.getD k v` models Python `d.get(k, v)`. -/
def Doc.getD (d : Doc) (k : String) (v : String) : String :=
  (d.get k).getD v

/-- Python string truthiness of an optional-string parameter:
`None` and `""` are falsy. -/
def strTruthy : Option String → Bool
  | none => false
  | some s => !s.isEmpty

/-- Python list truthiness of an optional-list parameter:
`None` and `[]` are falsy. -/
def listTruthy : Option (List String) → Bool
  | none => false
  | some l => !l.isEmpty

/-- The optional value when truthy, `none` otherwise (so `"" ` collapses to
`none`, as Python `if x:` guards make it behave). -/
def truthyOpt (o : Option String) : Option String :=
  if strTruthy o then o else none

/-- `re.escape`: every character other than an ASCII letter, digit or
underscore is preceded by a backslash. -/
def reEscape (s : String) : String :=
  ⟨s.data.foldr (fun c acc => if c.isAlphanum || c == '_' then c :: acc else '\\' :: c :: acc) []⟩

/-- The case-insensitive regex pattern built for the `contains` text search:
`f"(?i){re.escape(contains)}"`. -/
def regexPattern (contains : String) : String :=
  "(?i)" ++ reEscape contains

/-- One clause of a CouchDB Mango selector, as built by `query_tasks`. -/
inductive Clause where
  /-- A bare string equality value, e.g. `selector["dueDate"] = due`. -/
  | eqStr (v : String)
  /-- A bare integer equality value, e.g. `selector["isStarred"] = 1`. -/
  | eqNat (v : Nat)
  /-- `{"$ne": True}` — used to exclude completed documents. -/
  | neTrue
  /-- `{"$gte": ..., "$lte": ...}` with each bound optional. -/
  | range (gte lte : Option String)
  /-- `{"$elemMatch": {"$eq": id}}` — used for the label-id list. -/
  | elemMatchEq (id : String)
  /-- `[{"title": {"$regex": p}}, {"note": {"$regex": p}}]` under `$or`. -/
  | orRegex (pattern : String)
deriving DecidableEq

/-- A Mango selector: an association list from field names to clauses, in the
order `query_tasks` inserts them. -/
def Selector := List (String × Clause)

instance : DecidableEq Selector := inferInstanceAs (DecidableEq (List (String × Clause)))

instance : Append Selector := inferInstanceAs (Append (List (String × Clause)))

instance : Membership (String × Clause) Selector :=
  inferInstanceAs (Membership _ (List _))

/-- The clause stored under key `k`, if any (Python `dict` lookup). -/
def lookupClause (sel : Selector) (k : String) : Option Clause :=
  (List.find? (fun kc => kc.1 == k) sel).map Prod.snd

/-- The caller-facing filter parameters of the `query_tasks` tool, mirroring
its keyword arguments and their defaults. -/
structure QueryParams where
  label : Option String := none
  fields : Option (List String) := none
  include_done : Bool := false
  contains : Option String := none
  due : Option String := none
  due_before : Option String := none
  due_after : Option String := none
  scheduled : Option String := none
  scheduled_before : Option String := none
  scheduled_after : Option String := none
  parent_id : Option String := none
  is_starred : Option Bool := none

/-- main.py line 308: the base clause `selector = {"db": "Tasks"}`. -/
def segBase : Selector :=
  [("db", Clause.eqStr "Tasks")]

/-- main.py lines 309–310: `if not include_done: selector["done"] = {"$ne": True}`. -/
def segDone (p : QueryParams) : Selector :=
  if p.include_done then [] else [("done", Clause.neTrue)]

/-- main.py line 322: the label clause, once the label name has been
resolved to an id. -/
def segLabel : Option String → Selector
  | some lid => [("labelIds", Clause.elemMatchEq lid)]
  | none => []

/-- main.py lines 334–339: the case-insensitive text search clause. -/
def segContains (p : QueryParams) : Selector :=
  if strTruthy p.contains then
    [("$or", Clause.orRegex (regexPattern (p.contains.getD "")))]
  else []

/-- main.py lines 341–350: the due-date clause — exact date first, range
bounds only otherwise. -/
def segDue (p : QueryParams) : Selector :=
  if strTruthy p.due then
    [("dueDate", Clause.eqStr (p.due.getD ""))]
  else if strTruthy p.due_before || strTruthy p.due_after then
    [("dueDate", Clause.range (truthyOpt p.due_after) (truthyOpt p.due_before))]
  else []

/-- main.py lines 352–361: the scheduled-date (`day`) clause. -/
def segDay (p : QueryParams) : Selector :=
  if strTruthy p.scheduled then
    [("day", Clause.eqStr (p.scheduled.getD ""))]
  else if strTruthy p.scheduled_before || strTruthy p.scheduled_after then
    [("day", Clause.range (truthyOpt p.scheduled_after) (truthyOpt p.scheduled_before))]
  else []

/-- main.py lines 364–365: the parent-container clause. -/
def segParent (p : QueryParams) : Selector :=
  if strTruthy p.parent_id then
    [("parentId", Clause.eqStr (p.parent_id.getD ""))]
  else []

/-- main.py lines 366–367: the starred clause, translated to 0/1. -/
def segStarred (p : QueryParams) : Selector :=
  match p.is_starred with
  | some b => [("isStarred", Clause.eqNat (if b then 1 else 0))]
  | none => []

/-- The Mango selector built inside `query_tasks` (main.py lines 307–367),
after the label name has been resolved to `labelId` (or `none` when no label
filter was requested).  Clauses appear in source order. -/
def buildSelector (p : QueryParams) (labelId : Option String) : Selector :=
  segBase ++ segDone p ++ segLabel labelId ++ segContains p ++ segDue p
    ++ segDay p ++ segParent p ++ segStarred p

/-- Errors an API-client method can raise: `ValueError` for configuration
problems, an HTTP error carrying the response status, or a transport-level
request error. -/
inductive ApiError where
  | valueError (msg : String)
  | http (status : Nat)
  | transport (msg : String)
deriving DecidableEq

/-- The message used when an escaped exception is wrapped in an error
response (`str(e)` in `create_error_response`). -/
def ApiError.message : ApiError → String
  | .valueError m => m
  | .http s => "HTTP error " ++ toString s
  | .transport m => m

/-- Trailing `/` characters removed, as `db_uri.rstrip("/")` does. -/
def rstripSlash (s : String) : String :=
  ⟨(s.data.reverse.dropWhile (fun c => c == '/')).reverse⟩

/-- The CouchDB-relevant state of `MarvinAPIClient`: the four credentials as
stored by `__init__` (the URI already stripped of trailing slashes). -/
structure MarvinClient where
  db_uri : String
  db_name : String
  db_user : String
  db_password : String
deriving DecidableEq

/-- `MarvinAPIClient.__init__`: `self._db_uri = db_uri.rstrip("/") if db_uri
else ""`, the other three stored as given. -/
def mkClient (db_uri db_name db_user db_password : String) : MarvinClient :=
  { db_uri := if !db_uri.isEmpty then rstripSlash db_uri else ""
    db_name := db_name
    db_user := db_user
    db_password := db_password }

/-- `MarvinAPIClient.has_couchdb`: all four credentials are truthy
(non-empty). -/
def has_couchdb (c : MarvinClient) : Bool :=
  !c.db_uri.isEmpty && !c.db_name.isEmpty && !c.db_user.isEmpty && !c.db_password.isEmpty

/-- `list(set(fields) | {"_id"})`: the requested projection fields with the
identifier field force-included, as a duplicate-free list (Python sets are
unordered, so any duplicate-free list with the right membership models the
set). -/
def unionId (fields : List String) : List String :=
  (fields ++ ["_id"]).dedup

/-- Insertion into a sorted list of strings, the building block of the model
of Python `sorted`. -/
def insertSorted (x : String) : List String → List String
  | [] => [x]
  | y :: ys => if x ≤ y then x :: y :: ys else y :: insertSorted x ys

/-- Python `sorted` on a list of strings (insertion sort). -/
def sortStrings (l : List String) : List String :=
  l.foldr insertSorted []

/-- `sorted(set(fields) | {"_id"})`, recorded as `fields_returned`. -/
def fieldsReturned (fields : List String) : List String :=
  sortStrings (unionId fields)

/-- The JSON body `find_docs` posts to the `_find` endpoint: selector, limit,
and the optional `fields` key (absent when no truthy field list was given). -/
structure FindBody where
  selector : Selector
  limit : Nat
  fields : Option (List String)
deriving DecidableEq

/-- Outcome of a `find_docs` call: the returned documents or the raised
error, together with the request body actually posted (`none` when the
credential check failed before any HTTP request). -/
structure FindOutcome where
  result : Except ApiError (List Doc)
  issued : Option FindBody

/-- The `ValueError` message of `find_docs` when credentials are missing. -/
def findDocsConfigMsg : String :=
  "CouchDB credentials not configured. Set AMAZING_MARVIN_DB_URI, _DB_NAME, _DB_USER, _DB_PASSWORD."

/-- `MarvinAPIClient.find_docs` (api.py lines 64–103).  `store` is the
response the CouchDB `_find` endpoint would produce for the posted request
(documents, or an HTTP/transport failure). -/
def find_docs (c : MarvinClient) (store : Except ApiError (List Doc))
    (selector : Selector) (fields : Option (List String)) (limit : Nat) : FindOutcome :=
  if !has_couchdb c then
    { result := .error (.valueError findDocsConfigMsg), issued := none }
  else
    let body : FindBody :=
      { selector := selector
        limit := limit
        fields := if listTruthy fields then some (unionId (fields.getD [])) else none }
    { result := store, issued := some body }

/-- An upstream call issued by `query_tasks`: the `/labels` lookup, or the
CouchDB `_find` post with its body. -/
inductive UpCall where
  | getLabels
  | findDocsCall (body : FindBody)
deriving DecidableEq

/-- The `data` dict of a successful `query_tasks` response.  Optional entries
model dict keys that are only sometimes present. -/
structure SuccessData where
  tasks : List Doc
  total_tasks : Nat
  source : Option String
  fields_returned : Option (List String)
  label_filter : Option String
deriving DecidableEq

/-- A tool response: `create_simple_response` (data, summary text, endpoint,
api-calls count) or `create_error_response` (error message, endpoint). -/
inductive ToolResponse where
  | ok (data : SuccessData) (summary : String) (endpoint : String) (api_calls : Nat)
  | err (msg : String) (endpoint : String)
deriving DecidableEq

/-- The upstream world `query_tasks` runs against: the label documents the
`/labels` endpoint returns, and the store's response to the `_find` post. -/
structure Env where
  labels : List Doc
  store : Except ApiError (List Doc)

/-- The configuration-error message of `query_tasks` (main.py lines 297–300). -/
def queryTasksConfigMsg : String :=
  "CouchDB credentials not configured. Set AMAZING_MARVIN_DB_URI, _DB_NAME, _DB_USER, _DB_PASSWORD to use query_tasks. Use get_all_tasks as a fallback."

/-- Python `str.lower()`, character by character. -/
def lowerStr (s : String) : String :=
  ⟨s.data.map Char.toLower⟩

/-- The label-resolution step of `query_tasks`:
`next((lb for lb in labels if lb.get("title", "").lower() == label.lower()), None)`. -/
def resolveLabel (labels : List Doc) (label : String) : Option Doc :=
  labels.find? (fun lb => lowerStr (lb.getD "title" "") == lowerStr label)

/-- The client-side post-filter of `query_tasks` (main.py lines 373–375):
`[d for d in docs if d.get("type") not in ("project", "category")]`. -/
def filterNonContainers (docs : List Doc) : List Doc :=
  docs.filter (fun d => !(d.get "type" == some "project" || d.get "type" == some "category"))

/-- The human-readable filter list built for the summary text
(main.py lines 387–408). -/
def filterParts (p : QueryParams) : List String :=
  (if strTruthy p.label then ["label='" ++ p.label.getD "" ++ "'"] else [])
  ++ (if strTruthy p.contains then ["contains='" ++ p.contains.getD "" ++ "'"] else [])
  ++ (if strTruthy p.due then ["due=" ++ p.due.getD ""] else [])
  ++ (if strTruthy p.due_before then ["due<=" ++ p.due_before.getD ""] else [])
  ++ (if strTruthy p.due_after then ["due>=" ++ p.due_after.getD ""] else [])
  ++ (if strTruthy p.scheduled then ["scheduled=" ++ p.scheduled.getD ""] else [])
  ++ (if strTruthy p.scheduled_before then ["scheduled<=" ++ p.scheduled_before.getD ""] else [])
  ++ (if strTruthy p.scheduled_after then ["scheduled>=" ++ p.scheduled_after.getD ""] else [])
  ++ (if strTruthy p.parent_id then ["parent=" ++ p.parent_id.getD ""] else [])
  ++ (match p.is_starred with
      | some b => ["starred=" ++ (if b then "yes" else "no")]
      | none => [])

/-- `", ".join(filters)` wrapped in parentheses when non-empty. -/
def filterDesc (p : QueryParams) : String :=
  let parts := filterParts p
  if parts.isEmpty then "" else " (" ++ String.intercalate ", " parts ++ ")"

/-- The `query_tasks` tool handler (main.py lines 248–421), returning the
response together with the ordered trace of upstream calls it issued. -/
def queryTasks (c : MarvinClient) (env : Env) (p : QueryParams) :
    ToolResponse × List UpCall :=
  if !has_couchdb c then
    (.err queryTasksConfigMsg "CouchDB _find", [])
  else
    -- Label filter: resolve name → ID, short-circuiting when unresolved.
    let labelStep : Except (ToolResponse × List UpCall) (Option String × Nat × List UpCall) :=
      if strTruthy p.label then
        match resolveLabel env.labels (p.label.getD "") with
        | some lb =>
          match lb.get "_id" with
          | some lid => .ok (some lid, 1, [.getLabels])
          | none =>
            -- `label_match["_id"]` raises `KeyError` when the key is absent;
            -- the outer handler wraps it in an error response.
            .error (.err "'_id'" "CouchDB _find", [.getLabels])
        | none =>
          .error
            (.ok { tasks := [], total_tasks := 0, source := none
                   fields_returned := none, label_filter := none }
               ("No label found matching '" ++ p.label.getD "" ++ "'")
               "CouchDB _find" 1,
             [.getLabels])
      else .ok (none, 0, [])
    match labelStep with
    | .error out => out
    | .ok (labelId, api_calls, trace) =>
      let selector := buildSelector p labelId
      let fo := find_docs c env.store selector p.fields 500
      let trace := trace ++ (match fo.issued with
        | some body => [UpCall.findDocsCall body]
        | none => [])
      match fo.result with
      | .error e => (.err e.message "CouchDB _find", trace)
      | .ok docs =>
        let tasks := filterNonContainers docs
        let data : SuccessData :=
          { tasks := tasks
            total_tasks := tasks.length
            source := some "CouchDB _find query"
            fields_returned :=
              if listTruthy p.fields then some (fieldsReturned (p.fields.getD [])) else none
            label_filter := if strTruthy p.label then p.label else none }
        let summary :=
          "Retrieved " ++ toString tasks.length ++ " tasks via CouchDB" ++ filterDesc p
        (.ok data summary "CouchDB _find" (api_calls + 1), trace)

/-- The field-projection step of the `get_all_tasks` tool (main.py lines
221–228), applied to the task list produced by the traversal implementation:
when a truthy field list is given, each task dict is restricted to
`set(fields) | {"_id"}` and the sorted field set is recorded; otherwise the
tasks pass through unchanged and nothing is recorded. -/
def getAllTasksProject (fields : Option (List String)) (tasks : List Doc) :
    List Doc × Option (List String) :=
  if listTruthy fields then
    let field_set := unionId (fields.getD [])
    (tasks.map (fun t => t.filter (fun kv => field_set.contains kv.1)),
     some (sortStrings field_set))
  else (tasks, none)

/-- `MarvinAPIClient.get_children` (api.py lines 247–258): `upstream` is what
`_make_request("get", "/children?parentId=...")` produces.  A 404 HTTP error
becomes an empty child list; every other error is re-raised. -/
def get_children (upstream : Except ApiError (List Doc)) : Except ApiError (List Doc) :=
  match upstream with
  | .ok docs => .ok docs
  | .error (.http status) => if status == 404 then .ok [] else .error (.http status)
  | .error e => .error e

/-- The `data` dict built by `batch_mark_done`: completed task documents,
failed ids with their error messages, and the three counts. -/
structure BatchResult where
  completed_tasks : List Doc
  failed_tasks : List (String × String)
  success_count : Nat
  failure_count : Nat
  total_requested : Nat
deriving DecidableEq

/-- The per-id loop of `batch_mark_done` (main.py lines 1057–1062): `mark`
is the upstream `mark_task_done` collaborator.  Returns the accumulated
completed and failed lists together with the ordered list of ids actually
attempted. -/
def batchLoop (mark : String → Except ApiError Doc) :
    List String → List Doc × List (String × String) × List String
  | [] => ([], [], [])
  | tid :: rest =>
    match mark tid with
    | .ok d =>
      let r := batchLoop mark rest
      (d :: r.1, r.2.1, tid :: r.2.2)
    | .error e =>
      let r := batchLoop mark rest
      (r.1, (tid, e.message) :: r.2.1, tid :: r.2.2)

/-- The `batch_mark_done` tool handler (main.py lines 1048–1079), returning
the result dict together with the ordered list of attempted ids. -/
def batch_mark_done (mark : String → Except ApiError Doc) (task_ids : List String) :
    BatchResult × List String :=
  let r := batchLoop mark task_ids
  ({ completed_tasks := r.1
     failed_tasks := r.2.1
     success_count := r.1.length
     failure_count := r.2.1.length
     total_requested := task_ids.length },
   r.2.2)

/-- Appends `item` to the bucket of key `k`, creating the bucket at the end
on first use — Python `dict` insertion-order semantics for
`by_project[parent_id].append(item)`. -/
def addToGroup (groups : List (String × List Doc)) (k : String) (item : Doc) :
    List (String × List Doc) :=
  match groups with
  | [] => [(k, [item])]
  | (k', items) :: rest =>
    if k' == k then (k', items ++ [item]) :: rest
    else (k', items) :: addToGroup rest k item

/-- The grouping loop of `get_completed_tasks_for_date` (main.py lines
1227–1235), processing items left to right with the accumulated
`(by_project, unassigned)` state. -/
def groupLoop (items : List Doc) (acc : List (String × List Doc) × List Doc) :
    List (String × List Doc) × List Doc :=
  match items with
  | [] => acc
  | item :: rest =>
    let parent_id := item.getD "parentId" "unassigned"
    if parent_id == "unassigned" then
      groupLoop rest (acc.1, acc.2 ++ [item])
    else
      groupLoop rest (addToGroup acc.1 parent_id item, acc.2)

/-- The `data` dict built by `get_completed_tasks_for_date`. -/
structure CompletedForDate where
  date : String
  total_completed : Nat
  completed_by_project : List (String × List Doc)
  unassigned_completed : List Doc
  project_count : Nat
  unassigned_count : Nat
  all_completed : List Doc
deriving DecidableEq

/-- The aggregation step of the `get_completed_tasks_for_date` tool handler
(main.py lines 1220–1246): `completed_items` is what
`get_done_items(date=date)` returned. -/
def get_completed_tasks_for_date (date : String) (completed_items : List Doc) :
    CompletedForDate :=
  let g := groupLoop completed_items ([], [])
  { date := date
    total_completed := completed_items.length
    completed_by_project := g.1
    unassigned_completed := g.2
    project_count := g.1.length
    unassigned_count := g.2.length
    all_completed := completed_items }

/-- Lookup of a bucket in the grouped dict. -/
def lookupGroup (groups : List (String × List Doc)) (k : String) : Option (List Doc) :=
  (groups.find? (fun g => g.1 == k)).map Prod.snd

/-- The bucket of key `k`, or `[]` when the key is absent. -/
def groupItems (groups : List (String × List Doc)) (k : String) : List Doc :=
  (lookupGroup groups k).getD []

/-- Total number of items across all buckets. -/
def sumSizes (groups : List (String × List Doc)) : Nat :=
  (groups.map (fun g => g.2.length)).sum

/-- The task list carried by a tool response (empty for error responses). -/
def responseTasks : ToolResponse → List Doc
  | .ok d _ _ _ => d.tasks
  | .err _ _ => []

/-- The `fields_returned` entry carried by a tool response, if any. -/
def responseFieldsReturned : ToolResponse → Option (List String)
  | .ok d _ _ _ => d.fields_returned
  | .err _ _ => none

/-- Whether `sub` occurs as a contiguous sublist of the second argument. -/
def subListOf (sub : List Char) : List Char → Bool
  | [] => sub.isEmpty
  | c :: rest => List.isPrefixOf sub (c :: rest) || subListOf sub rest

/-- Whether `sub` occurs as a substring of `s` (used to express that an error
message names a setting or a tool). -/
def strContains (s sub : String) : Bool :=
  subListOf sub.data s.data

/-- Spec-side definition, following the spec's words for comparison with the
code: the environment-variable names of the store credentials that are
missing (empty) on a client. -/
def specMissingSettings (c : MarvinClient) : List String :=
  (if c.db_uri.isEmpty then ["AMAZING_MARVIN_DB_URI"] else [])
  ++ (if c.db_name.isEmpty then ["AMAZING_MARVIN_DB_NAME"] else [])
  ++ (if c.db_user.isEmpty then ["AMAZING_MARVIN_DB_USER"] else [])
  ++ (if c.db_password.isEmpty then ["AMAZING_MARVIN_DB_PASSWORD"] else [])

/-- A client with all four store credentials configured. -/
def sampleClient : MarvinClient :=
  mkClient "http://db.example" "marvin" "user" "pw"

/-- A plain task document. -/
def sampleTaskDoc : Doc :=
  [("_id", "t1"), ("title", "Write report"), ("day", "2025-06-13")]

/-- A project (container) document, as the store may return for the same
collection tag. -/
def sampleProjectDoc : Doc :=
  [("_id", "p1"), ("title", "Work"), ("type", "project")]

/-- A category (container) document. -/
def sampleCategoryDoc : Doc :=
  [("_id", "c1"), ("title", "Personal"), ("type", "category")]

/-- A completed task document. -/
def sampleDoneDoc : Doc :=
  [("_id", "t2"), ("title", "Old chore"), ("done", "true")]

/-! ## Theorems -/

theorem lookupClause_append (s₁ s₂ : Selector) (k : String) :
    lookupClause (s₁ ++ s₂) k = (lookupClause s₁ k).or (lookupClause s₂ k) := by
  unfold lookupClause
  show (List.find? _ (s₁ ++ s₂)).map _ = _
  rw [List.find?_append]
  cases List.find? (fun kc => kc.1 == k) s₁ <;> simp

theorem lookupClause_segBase_ne (k : String) (h : ("db" == k) = false) :
    lookupClause segBase k = none := by
  unfold segBase lookupClause
  simp [List.find?, h]

theorem lookupClause_segDone_ne (p : QueryParams) (k : String) (h : ("done" == k) = false) :
    lookupClause (segDone p) k = none := by
  unfold segDone lookupClause
  split <;> simp [List.find?, h]

theorem lookupClause_segLabel_ne (lid : Option String) (k : String)
    (h : ("labelIds" == k) = false) :
    lookupClause (segLabel lid) k = none := by
  unfold segLabel lookupClause
  cases lid <;> simp [List.find?, h]

theorem lookupClause_segContains_ne (p : QueryParams) (k : String)
    (h : (("$or" : String) == k) = false) :
    lookupClause (segContains p) k = none := by
  unfold segContains lookupClause
  split <;> simp [List.find?, h]

theorem lookupClause_segDue_ne (p : QueryParams) (k : String)
    (h : ("dueDate" == k) = false) :
    lookupClause (segDue p) k = none := by
  unfold segDue lookupClause
  split_ifs <;> simp [List.find?, h]

theorem lookupClause_segDay_ne (p : QueryParams) (k : String)
    (h : ("day" == k) = false) :
    lookupClause (segDay p) k = none := by
  unfold segDay lookupClause
  split_ifs <;> simp [List.find?, h]

theorem lookupClause_segParent_ne (p : QueryParams) (k : String)
    (h : ("parentId" == k) = false) :
    lookupClause (segParent p) k = none := by
  unfold segParent lookupClause
  split <;> simp [List.find?, h]

theorem lookupClause_segStarred_ne (p : QueryParams) (k : String)
    (h : ("isStarred" == k) = false) :
    lookupClause (segStarred p) k = none := by
  unfold segStarred lookupClause
  cases p.is_starred <;> simp [List.find?, h]

theorem lookup_buildSelector_dueDate (p : QueryParams) (lid : Option String) :
    lookupClause (buildSelector p lid) "dueDate" = lookupClause (segDue p) "dueDate" := by
  unfold buildSelector
  simp [lookupClause_append, lookupClause_segBase_ne, lookupClause_segDone_ne,
    lookupClause_segLabel_ne, lookupClause_segContains_ne, lookupClause_segDay_ne,
    lookupClause_segParent_ne, lookupClause_segStarred_ne]

theorem lookup_buildSelector_day (p : QueryParams) (lid : Option String) :
    lookupClause (buildSelector p lid) "day" = lookupClause (segDay p) "day" := by
  unfold buildSelector
  simp [lookupClause_append, lookupClause_segBase_ne, lookupClause_segDone_ne,
    lookupClause_segLabel_ne, lookupClause_segContains_ne, lookupClause_segDue_ne,
    lookupClause_segParent_ne, lookupClause_segStarred_ne]

theorem lookup_buildSelector_done (p : QueryParams) (lid : Option String) :
    lookupClause (buildSelector p lid) "done" = lookupClause (segDone p) "done" := by
  unfold buildSelector
  simp [lookupClause_append, lookupClause_segBase_ne, lookupClause_segLabel_ne,
    lookupClause_segContains_ne, lookupClause_segDue_ne, lookupClause_segDay_ne,
    lookupClause_segParent_ne, lookupClause_segStarred_ne]

theorem lookup_segDue (p : QueryParams) :
    lookupClause (segDue p) "dueDate" =
      (if strTruthy p.due then some (Clause.eqStr (p.due.getD ""))
       else if strTruthy p.due_before || strTruthy p.due_after then
         some (Clause.range (truthyOpt p.due_after) (truthyOpt p.due_before))
       else none) := by
  unfold segDue lookupClause
  split_ifs <;> rfl

theorem lookup_segDay (p : QueryParams) :
    lookupClause (segDay p) "day" =
      (if strTruthy p.scheduled then some (Clause.eqStr (p.scheduled.getD ""))
       else if strTruthy p.scheduled_before || strTruthy p.scheduled_after then
         some (Clause.range (truthyOpt p.scheduled_after) (truthyOpt p.scheduled_before))
       else none) := by
  unfold segDay lookupClause
  split_ifs <;> rfl

theorem lookup_segDone (p : QueryParams) :
    lookupClause (segDone p) "done" =
      (if p.include_done then none else some Clause.neTrue) := by
  unfold segDone lookupClause
  split_ifs <;> rfl

/-- **C1.** For every `query_tasks` filter request: when an exact due date is
supplied (truthy), the selector's `dueDate` clause is exactly that date,
whatever `due_before`/`due_after` were supplied; when no exact due date is
supplied and at least one bound is, the `dueDate` clause is a range mapping
`due_after` to `$gte` and `due_before` to `$lte`.  The same holds
independently for the scheduled date under the `day` key. -/
theorem query_tasks_exact_date_precedence (p : QueryParams) (lid : Option String) :
    (strTruthy p.due = true →
      lookupClause (buildSelector p lid) "dueDate" = some (Clause.eqStr (p.due.getD ""))) ∧
    (strTruthy p.due = false → (strTruthy p.due_before || strTruthy p.due_after) = true →
      lookupClause (buildSelector p lid) "dueDate" =
        some (Clause.range (truthyOpt p.due_after) (truthyOpt p.due_before))) ∧
    (strTruthy p.scheduled = true →
      lookupClause (buildSelector p lid) "day" = some (Clause.eqStr (p.scheduled.getD ""))) ∧
    (strTruthy p.scheduled = false →
      (strTruthy p.scheduled_before || strTruthy p.scheduled_after) = true →
      lookupClause (buildSelector p lid) "day" =
        some (Clause.range (truthyOpt p.scheduled_after) (truthyOpt p.scheduled_before))) := by
  refine ⟨fun h => ?_, fun h h' => ?_, fun h => ?_, fun h h' => ?_⟩
  · rw [lookup_buildSelector_dueDate, lookup_segDue]
    simp [h]
  · rw [lookup_buildSelector_dueDate, lookup_segDue]
    simp [h, h']
  · rw [lookup_buildSelector_day, lookup_segDay]
    simp [h]
  · rw [lookup_buildSelector_day, lookup_segDay]
    simp [h, h']

/-- Witness for C1: a request carrying an exact due date `2025-01-15`
together with both due bounds gets the exact-date clause, and a request with
only a scheduled upper bound gets the corresponding `$lte` range clause. -/
theorem query_tasks_exact_date_precedence_witness :
    lookupClause
        (buildSelector
          { due := some "2025-01-15", due_before := some "2025-01-01",
            due_after := some "2025-02-01" } none) "dueDate" =
      some (Clause.eqStr "2025-01-15") ∧
    lookupClause (buildSelector { scheduled_before := some "2025-03-01" } none) "day" =
      some (Clause.range none (some "2025-03-01")) := by
  constructor
  · exact (query_tasks_exact_date_precedence
      { due := some "2025-01-15", due_before := some "2025-01-01",
        due_after := some "2025-02-01" } none).1 (by decide)
  · exact (query_tasks_exact_date_precedence
      { scheduled_before := some "2025-03-01" } none).2.2.2 (by decide) (by decide)

/-- **C6.** When `include_done` is not set, the built selector carries the
`done ≠ true` exclusion clause; when it is set, no completion clause is
present, and (concretely) a completed document returned by the store is
passed through to the result. -/
theorem query_tasks_done_exclusion (p : QueryParams) (lid : Option String) :
    (p.include_done = false →
      lookupClause (buildSelector p lid) "done" = some Clause.neTrue) ∧
    (p.include_done = true →
      lookupClause (buildSelector p lid) "done" = none) ∧
    responseTasks (queryTasks sampleClient ⟨[], .ok [sampleDoneDoc]⟩
        { include_done := true }).1 = [sampleDoneDoc] := by
  refine ⟨fun h => ?_, fun h => ?_, by decide⟩
  · rw [lookup_buildSelector_done, lookup_segDone]
    simp [h]
  · rw [lookup_buildSelector_done, lookup_segDone]
    simp [h]

/-- Witness for C6: with the default request the `done` exclusion clause is
present; with `include_done := true` it is absent. -/
theorem query_tasks_done_exclusion_witness :
    lookupClause (buildSelector {} none) "done" = some Clause.neTrue ∧
    lookupClause (buildSelector { include_done := true } none) "done" = none :=
  ⟨(query_tasks_done_exclusion {} none).1 rfl,
   (query_tasks_done_exclusion { include_done := true } none).2.1 rfl⟩

theorem queryTasks_config_error (c : MarvinClient) (env : Env) (p : QueryParams)
    (hc : has_couchdb c = false) :
    queryTasks c env p = (.err queryTasksConfigMsg "CouchDB _find", []) := by
  unfold queryTasks
  simp [hc]

theorem queryTasks_label_not_found (c : MarvinClient) (env : Env) (p : QueryParams)
    (hc : has_couchdb c = true) (hl : strTruthy p.label = true)
    (hr : resolveLabel env.labels (p.label.getD "") = none) :
    queryTasks c env p =
      (ToolResponse.ok
          { tasks := [], total_tasks := 0, source := none,
            fields_returned := none, label_filter := none }
          ("No label found matching '" ++ p.label.getD "" ++ "'")
          "CouchDB _find" 1,
       [UpCall.getLabels]) := by
  unfold queryTasks
  simp [hc, hl, hr]

theorem queryTasks_label_no_id (c : MarvinClient) (env : Env) (p : QueryParams)
    (lb : Doc) (hc : has_couchdb c = true) (hl : strTruthy p.label = true)
    (hr : resolveLabel env.labels (p.label.getD "") = some lb)
    (hid : lb.get "_id" = none) :
    queryTasks c env p = (.err "'_id'" "CouchDB _find", [UpCall.getLabels]) := by
  unfold queryTasks
  simp [hc, hl, hr, hid]

theorem queryTasks_ok_no_label (c : MarvinClient) (env : Env) (p : QueryParams)
    (docs : List Doc) (hc : has_couchdb c = true) (hl : strTruthy p.label = false)
    (hs : env.store = .ok docs) :
    queryTasks c env p =
      (ToolResponse.ok
          { tasks := filterNonContainers docs,
            total_tasks := (filterNonContainers docs).length,
            source := some "CouchDB _find query",
            fields_returned :=
              if listTruthy p.fields then some (fieldsReturned (p.fields.getD [])) else none,
            label_filter := none }
          ("Retrieved " ++ toString (filterNonContainers docs).length ++ " tasks via CouchDB"
            ++ filterDesc p)
          "CouchDB _find" 1,
       [UpCall.findDocsCall
          { selector := buildSelector p none, limit := 500,
            fields := if listTruthy p.fields then some (unionId (p.fields.getD [])) else none }]) := by
  unfold queryTasks find_docs
  simp [hc, hl, hs]

theorem queryTasks_ok_with_label (c : MarvinClient) (env : Env) (p : QueryParams)
    (docs : List Doc) (lb : Doc) (lid : String)
    (hc : has_couchdb c = true) (hl : strTruthy p.label = true)
    (hr : resolveLabel env.labels (p.label.getD "") = some lb)
    (hid : lb.get "_id" = some lid)
    (hs : env.store = .ok docs) :
    queryTasks c env p =
      (ToolResponse.ok
          { tasks := filterNonContainers docs,
            total_tasks := (filterNonContainers docs).length,
            source := some "CouchDB _find query",
            fields_returned :=
              if listTruthy p.fields then some (fieldsReturned (p.fields.getD [])) else none,
            label_filter := p.label }
          ("Retrieved " ++ toString (filterNonContainers docs).length ++ " tasks via CouchDB"
            ++ filterDesc p)
          "CouchDB _find" 2,
       [UpCall.getLabels,
        UpCall.findDocsCall
          { selector := buildSelector p (some lid), limit := 500,
            fields := if listTruthy p.fields then some (unionId (p.fields.getD [])) else none }]) := by
  unfold queryTasks find_docs
  simp [hc, hl, hr, hid, hs]

theorem queryTasks_store_error_no_label (c : MarvinClient) (env : Env) (p : QueryParams)
    (e : ApiError) (hc : has_couchdb c = true) (hl : strTruthy p.label = false)
    (hs : env.store = .error e) :
    queryTasks c env p =
      (.err e.message "CouchDB _find",
       [UpCall.findDocsCall
          { selector := buildSelector p none, limit := 500,
            fields := if listTruthy p.fields then some (unionId (p.fields.getD [])) else none }]) := by
  unfold queryTasks find_docs
  simp [hc, hl, hs]

theorem queryTasks_store_error_with_label (c : MarvinClient) (env : Env) (p : QueryParams)
    (e : ApiError) (lb : Doc) (lid : String)
    (hc : has_couchdb c = true) (hl : strTruthy p.label = true)
    (hr : resolveLabel env.labels (p.label.getD "") = some lb)
    (hid : lb.get "_id" = some lid)
    (hs : env.store = .error e) :
    queryTasks c env p =
      (.err e.message "CouchDB _find",
       [UpCall.getLabels,
        UpCall.findDocsCall
          { selector := buildSelector p (some lid), limit := 500,
            fields := if listTruthy p.fields then some (unionId (p.fields.getD [])) else none }]) := by
  unfold queryTasks find_docs
  simp [hc, hl, hr, hid, hs]

/-- **C2.** When the requested label name matches no known label under
case-insensitive title comparison, `query_tasks` returns an empty task list
with total count zero and a summary saying no matching label was found, and
the only upstream call issued is the label lookup — the `_find` query is
never posted. -/
theorem query_tasks_unresolved_label (c : MarvinClient) (env : Env) (p : QueryParams)
    (hc : has_couchdb c = true) (hl : strTruthy p.label = true)
    (hnone : ∀ lb ∈ env.labels, lowerStr (Doc.getD lb "title" "") ≠ lowerStr (p.label.getD "")) :
    queryTasks c env p =
      (ToolResponse.ok
          { tasks := [], total_tasks := 0, source := none,
            fields_returned := none, label_filter := none }
          ("No label found matching '" ++ p.label.getD "" ++ "'")
          "CouchDB _find" 1,
       [UpCall.getLabels]) := by
  apply queryTasks_label_not_found c env p hc hl
  unfold resolveLabel
  apply List.find?_eq_none.mpr
  intro lb hmem
  simp only [beq_iff_eq]
  exact hnone lb hmem

/-- Witness for C2: querying for label `home` when the only known label is
titled `Work` short-circuits to the empty result after one upstream call. -/
theorem query_tasks_unresolved_label_witness :
    queryTasks sampleClient ⟨[[("title", "Work"), ("_id", "l9")]], .ok [sampleTaskDoc]⟩
        { label := some "home" } =
      (ToolResponse.ok
          { tasks := [], total_tasks := 0, source := none,
            fields_returned := none, label_filter := none }
          "No label found matching 'home'" "CouchDB _find" 1,
       [UpCall.getLabels]) :=
  query_tasks_unresolved_label sampleClient
    ⟨[[("title", "Work"), ("_id", "l9")]], .ok [sampleTaskDoc]⟩
    { label := some "home" } (by decide) (by decide) (by decide)

/-- **C3.** Whatever the request and whatever the store returns, the task
list of a `query_tasks` result never contains a document whose type
discriminator is `project` or `category`: container documents are
post-filtered out. -/
theorem query_tasks_result_excludes_containers (c : MarvinClient) (env : Env)
    (p : QueryParams) (d : Doc)
    (hd : d ∈ responseTasks (queryTasks c env p).1) :
    Doc.get d "type" ≠ some "project" ∧ Doc.get d "type" ≠ some "category" := by
  by_cases hc : has_couchdb c = true
  case neg =>
    rw [queryTasks_config_error c env p (by simpa using hc)] at hd
    simp [responseTasks] at hd
  case pos =>
    cases hlb : strTruthy p.label with
    | false =>
      cases hs : env.store with
      | error e =>
        rw [queryTasks_store_error_no_label c env p e hc hlb hs] at hd
        simp [responseTasks] at hd
      | ok docs =>
        rw [queryTasks_ok_no_label c env p docs hc hlb hs] at hd
        simp only [responseTasks, filterNonContainers, List.mem_filter] at hd
        simpa using hd.2
    | true =>
      cases hr : resolveLabel env.labels (p.label.getD "") with
      | none =>
        rw [queryTasks_label_not_found c env p hc hlb hr] at hd
        simp [responseTasks] at hd
      | some lb =>
        cases hid : lb.get "_id" with
        | none =>
          rw [queryTasks_label_no_id c env p lb hc hlb hr hid] at hd
          simp [responseTasks] at hd
        | some lid =>
          cases hs : env.store with
          | error e =>
            rw [queryTasks_store_error_with_label c env p e lb lid hc hlb hr hid hs] at hd
            simp [responseTasks] at hd
          | ok docs =>
            rw [queryTasks_ok_with_label c env p docs lb lid hc hlb hr hid hs] at hd
            simp only [responseTasks, filterNonContainers, List.mem_filter] at hd
            simpa using hd.2

/-- Witness for C3: with the store returning a task, a project and a
category document, the task document is in the result and carries no
container type discriminator. -/
theorem query_tasks_result_excludes_containers_witness :
    Doc.get sampleTaskDoc "type" ≠ some "project" ∧
    Doc.get sampleTaskDoc "type" ≠ some "category" :=
  query_tasks_result_excludes_containers sampleClient
    ⟨[], .ok [sampleTaskDoc, sampleProjectDoc, sampleCategoryDoc]⟩ {} sampleTaskDoc
    (by decide)

/-- Counterexample to C4 as stated: with the URI, database name and user
configured and only the password missing, the set of missing settings is
exactly the password variable, yet the configuration error message still
names `AMAZING_MARVIN_DB_URI`, and never spells out
`AMAZING_MARVIN_DB_PASSWORD` in full (it appears only as the abbreviation
`_DB_PASSWORD`).  The message is a fixed string naming all four settings,
not the exact missing ones. -/
theorem query_tasks_config_error_names_counterexample :
    has_couchdb (mkClient "http://db.example" "marvin" "user" "") = false ∧
    specMissingSettings (mkClient "http://db.example" "marvin" "user" "") =
      ["AMAZING_MARVIN_DB_PASSWORD"] ∧
    (queryTasks (mkClient "http://db.example" "marvin" "user" "") ⟨[], .ok []⟩ {}).1 =
      .err queryTasksConfigMsg "CouchDB _find" ∧
    strContains queryTasksConfigMsg "AMAZING_MARVIN_DB_URI" = true ∧
    strContains queryTasksConfigMsg "AMAZING_MARVIN_DB_PASSWORD" = false := by
  refine ⟨by decide, by decide, ?_, by decide, by decide⟩
  rw [queryTasks_config_error _ _ _ (by decide)]

/-- **C4 (amended).** Unless all four store credentials are configured,
`query_tasks` fails with a configuration error before issuing any upstream
call; its fixed message lists all four credential settings (the URI variable
in full, the other three abbreviated) and suggests the `get_all_tasks`
fallback.  Likewise `find_docs` raises a `ValueError` naming the settings
without posting the HTTP request. -/
theorem query_tasks_requires_credentials (c : MarvinClient) (env : Env) (p : QueryParams)
    (store : Except ApiError (List Doc)) (sel : Selector) (fs : Option (List String))
    (limit : Nat) (hc : has_couchdb c = false) :
    queryTasks c env p = (.err queryTasksConfigMsg "CouchDB _find", []) ∧
    strContains queryTasksConfigMsg "AMAZING_MARVIN_DB_URI" = true ∧
    strContains queryTasksConfigMsg "_DB_NAME" = true ∧
    strContains queryTasksConfigMsg "_DB_USER" = true ∧
    strContains queryTasksConfigMsg "_DB_PASSWORD" = true ∧
    strContains queryTasksConfigMsg "get_all_tasks" = true ∧
    find_docs c store sel fs limit =
      { result := .error (.valueError findDocsConfigMsg), issued := none } ∧
    strContains findDocsConfigMsg "AMAZING_MARVIN_DB_URI" = true := by
  refine ⟨queryTasks_config_error c env p hc, by decide, by decide, by decide, by decide,
    by decide, ?_, by decide⟩
  unfold find_docs
  simp [hc]

/-- Witness for the amended C4, at a client missing only the password. -/
theorem query_tasks_requires_credentials_witness :
    queryTasks (mkClient "http://db.example" "marvin" "user" "") ⟨[], .ok []⟩ {} =
      (.err queryTasksConfigMsg "CouchDB _find", []) ∧
    find_docs (mkClient "http://db.example" "marvin" "user" "") (.ok []) segBase none 500 =
      { result := .error (.valueError findDocsConfigMsg), issued := none } :=
  ⟨(query_tasks_requires_credentials (mkClient "http://db.example" "marvin" "user" "")
      ⟨[], .ok []⟩ {} (.ok []) segBase none 500 (by decide)).1,
   (query_tasks_requires_credentials (mkClient "http://db.example" "marvin" "user" "")
      ⟨[], .ok []⟩ {} (.ok []) segBase none 500 (by decide)).2.2.2.2.2.2.1⟩

theorem mem_unionId (x : String) (fs : List String) :
    x ∈ unionId fs ↔ (x ∈ fs ∨ x = "_id") := by
  unfold unionId
  rw [List.mem_dedup, List.mem_append]
  simp

theorem mem_insertSorted (x y : String) (l : List String) :
    x ∈ insertSorted y l ↔ (x = y ∨ x ∈ l) := by
  induction l with
  | nil => simp [insertSorted]
  | cons z zs ih =>
    unfold insertSorted
    split_ifs
    · simp
    · simp only [List.mem_cons, ih]
      tauto

theorem mem_sortStrings (x : String) (l : List String) :
    x ∈ sortStrings l ↔ x ∈ l := by
  induction l with
  | nil => simp [sortStrings]
  | cons y ys ih =>
    rw [show sortStrings (y :: ys) = insertSorted y (sortStrings ys) from rfl,
      mem_insertSorted, ih]
    simp

theorem mem_fieldsReturned (x : String) (fs : List String) :
    x ∈ fieldsReturned fs ↔ (x ∈ fs ∨ x = "_id") := by
  unfold fieldsReturned
  rw [mem_sortStrings, mem_unionId]

/-- **C5.** For every non-empty projection list, the identifier field is
force-included everywhere: the field set `find_docs` posts is the requested
set union `{"_id"}`, the `get_all_tasks` projection keeps the `_id` entry of
every task that has one, and the recorded `fields_returned` (in both
`get_all_tasks` and `query_tasks` results) is exactly the requested set plus
`_id`. -/
theorem projection_forces_id (fs : List String) (hfs : fs ≠ []) :
    (∀ x, x ∈ unionId fs ↔ (x ∈ fs ∨ x = "_id")) ∧
    (∀ c store sel limit, has_couchdb c = true →
      (find_docs c store sel (some fs) limit).issued =
        some { selector := sel, limit := limit, fields := some (unionId fs) }) ∧
    (∀ tasks t v, t ∈ tasks → ("_id", v) ∈ t →
      ∃ t' ∈ (getAllTasksProject (some fs) tasks).1, ("_id", v) ∈ t') ∧
    (∀ tasks, (getAllTasksProject (some fs) tasks).2 = some (fieldsReturned fs)) ∧
    (∀ x, x ∈ fieldsReturned fs ↔ (x ∈ fs ∨ x = "_id")) ∧
    (∀ c env p docs, has_couchdb c = true → strTruthy p.label = false →
      p.fields = some fs → env.store = .ok docs →
      responseFieldsReturned (queryTasks c env p).1 = some (fieldsReturned fs)) := by
  have htruthy : listTruthy (some fs) = true := by
    simp [listTruthy, List.isEmpty_eq_false, hfs]
  refine ⟨fun x => mem_unionId x fs, ?_, ?_, ?_, fun x => mem_fieldsReturned x fs, ?_⟩
  · intro c store sel limit hc
    unfold find_docs
    simp [hc, htruthy]
  · intro tasks t v ht hid
    unfold getAllTasksProject
    rw [htruthy]
    simp only [if_true, Option.getD_some]
    refine ⟨t.filter (fun kv => (unionId fs).contains kv.1), List.mem_map_of_mem _ ht, ?_⟩
    show ("_id", v) ∈ List.filter _ t
    rw [List.mem_filter]
    refine ⟨hid, ?_⟩
    simpa [List.elem_iff] using (mem_unionId "_id" fs).mpr (Or.inr rfl)
  · intro tasks
    unfold getAllTasksProject fieldsReturned
    rw [htruthy]
    simp
  · intro c env p docs hc hl hp hs
    rw [queryTasks_ok_no_label c env p docs hc hl hs]
    simp [responseFieldsReturned, hp, htruthy]

/-- Witness for C5, at the one-element projection list `["title"]` and a
store/task containing an `_id` entry. -/
theorem projection_forces_id_witness :
    ("_id" ∈ unionId ["title"] ↔ ("_id" ∈ (["title"] : List String) ∨ "_id" = "_id")) ∧
    (find_docs sampleClient (.ok []) segBase (some ["title"]) 500).issued =
      some { selector := segBase, limit := 500, fields := some (unionId ["title"]) } ∧
    (∃ t' ∈ (getAllTasksProject (some ["title"]) [sampleTaskDoc]).1, ("_id", "t1") ∈ t') :=
  ⟨(projection_forces_id ["title"] (by decide)).1 "_id",
   (projection_forces_id ["title"] (by decide)).2.1 sampleClient (.ok []) segBase 500 (by decide),
   (projection_forces_id ["title"] (by decide)).2.2.1 [sampleTaskDoc] sampleTaskDoc "t1"
     (by decide) (by decide)⟩

theorem responseFieldsReturned_of_not_truthy (c : MarvinClient) (env : Env)
    (p : QueryParams) (hf : listTruthy p.fields = false) :
    responseFieldsReturned (queryTasks c env p).1 = none := by
  by_cases hc : has_couchdb c = true
  case neg =>
    rw [queryTasks_config_error c env p (by simpa using hc)]
    rfl
  case pos =>
    cases hlb : strTruthy p.label with
    | false =>
      cases hs : env.store with
      | error e =>
        rw [queryTasks_store_error_no_label c env p e hc hlb hs]
        rfl
      | ok docs =>
        rw [queryTasks_ok_no_label c env p docs hc hlb hs]
        simp [responseFieldsReturned, hf]
    | true =>
      cases hr : resolveLabel env.labels (p.label.getD "") with
      | none =>
        rw [queryTasks_label_not_found c env p hc hlb hr]
        rfl
      | some lb =>
        cases hid : lb.get "_id" with
        | none =>
          rw [queryTasks_label_no_id c env p lb hc hlb hr hid]
          rfl
        | some lid =>
          cases hs : env.store with
          | error e =>
            rw [queryTasks_store_error_with_label c env p e lb lid hc hlb hr hid hs]
            rfl
          | ok docs =>
            rw [queryTasks_ok_with_label c env p docs lb lid hc hlb hr hid hs]
            simp [responseFieldsReturned, hf]

/-- **C9.** An empty projection list is treated as "no projection requested":
`find_docs` posts a body without a `fields` key (so `_id` is not force-added
to the request), `get_all_tasks` leaves tasks unprojected and records
nothing, and the `query_tasks` result carries no `fields_returned`. -/
theorem empty_fields_means_no_projection :
    (∀ c store sel limit, has_couchdb c = true →
      (find_docs c store sel (some []) limit).issued =
        some { selector := sel, limit := limit, fields := none }) ∧
    (∀ tasks, getAllTasksProject (some []) tasks = (tasks, none)) ∧
    (∀ c env p, p.fields = some ([] : List String) →
      responseFieldsReturned (queryTasks c env p).1 = none) := by
  refine ⟨?_, ?_, ?_⟩
  · intro c store sel limit hc
    unfold find_docs
    simp [hc, listTruthy]
  · intro tasks
    unfold getAllTasksProject
    simp [listTruthy]
  · intro c env p hp
    exact responseFieldsReturned_of_not_truthy c env p (by simp [hp, listTruthy])

/-- Witness for C9, at a configured client, a singleton store and the
explicit empty field list. -/
theorem empty_fields_means_no_projection_witness :
    (find_docs sampleClient (.ok []) segBase (some []) 500).issued =
      some { selector := segBase, limit := 500, fields := none } ∧
    getAllTasksProject (some []) [sampleTaskDoc] = ([sampleTaskDoc], none) ∧
    responseFieldsReturned
        (queryTasks sampleClient ⟨[], .ok [sampleTaskDoc]⟩ { fields := some [] }).1 = none :=
  ⟨empty_fields_means_no_projection.1 sampleClient (.ok []) segBase 500 (by decide),
   empty_fields_means_no_projection.2.1 [sampleTaskDoc],
   empty_fields_means_no_projection.2.2 sampleClient ⟨[], .ok [sampleTaskDoc]⟩
     { fields := some [] } rfl⟩

/-- **C8.** `get_children` absorbs a not-found (404) HTTP failure of the
upstream children fetch into an empty child list, re-raises every other
HTTP error unchanged, and passes successful results through. -/
theorem get_children_not_found_absorbed :
    get_children (.error (.http 404)) = .ok ([] : List Doc) ∧
    (∀ s : Nat, s ≠ 404 → get_children (.error (.http s)) = .error (.http s)) ∧
    (∀ docs : List Doc, get_children (.ok docs) = .ok docs) := by
  refine ⟨rfl, ?_, fun docs => rfl⟩
  intro s hs
  unfold get_children
  simp [hs]

/-- Witness for C8: a 500 error is re-raised. -/
theorem get_children_not_found_absorbed_witness :
    get_children (.error (.http 500)) = Except.error (ApiError.http 500) :=
  get_children_not_found_absorbed.2.1 500 (by decide)

theorem batchLoop_char (mark : String → Except ApiError Doc) (ids : List String) :
    (batchLoop mark ids).1 = ids.filterMap (fun t => (mark t).toOption) ∧
    (batchLoop mark ids).2.1 =
      ids.filterMap (fun t =>
        match mark t with
        | .ok _ => none
        | .error e => some (t, e.message)) ∧
    (batchLoop mark ids).2.2 = ids ∧
    (batchLoop mark ids).1.length + (batchLoop mark ids).2.1.length = ids.length := by
  induction ids with
  | nil => simp [batchLoop]
  | cons tid rest ih =>
    obtain ⟨ih1, ih2, ih3, ih4⟩ := ih
    rw [ih1, ih2] at ih4
    cases hm : mark tid <;>
      simp only [Except.toOption] at ih4 <;>
      simp [batchLoop, hm, ih1, ih2, ih3, List.filterMap_cons, Except.toOption] <;>
      omega

/-- **C10.** `batch_mark_done` attempts every requested id exactly once and
in order (a failure does not stop the loop); successes and failures are
collected separately in request order, and the counts satisfy
`success_count + failure_count = total_requested = |ids|`. -/
theorem batch_mark_done_spec (mark : String → Except ApiError Doc) (ids : List String) :
    (batch_mark_done mark ids).2 = ids ∧
    (batch_mark_done mark ids).1.total_requested = ids.length ∧
    (batch_mark_done mark ids).1.success_count + (batch_mark_done mark ids).1.failure_count =
      ids.length ∧
    (batch_mark_done mark ids).1.completed_tasks =
      ids.filterMap (fun t => (mark t).toOption) ∧
    (batch_mark_done mark ids).1.failed_tasks =
      ids.filterMap (fun t =>
        match mark t with
        | .ok _ => none
        | .error e => some (t, e.message)) := by
  obtain ⟨h1, h2, h3, h4⟩ := batchLoop_char mark ids
  exact ⟨h3, rfl, h4, h1, h2⟩

theorem groupLoop_flat (items : List Doc) (g : List (String × List Doc)) (u : List Doc) :
    (groupLoop items (g, u)).2 =
      u ++ items.filter (fun i => i.getD "parentId" "unassigned" == "unassigned") := by
  induction items generalizing g u with
  | nil => simp [groupLoop]
  | cons item rest ih =>
    unfold groupLoop
    by_cases h : (Doc.getD item "parentId" "unassigned" == "unassigned") = true
    · simp only [h, if_true, ih, List.filter_cons, List.append_assoc, List.singleton_append]
    · rw [if_neg (by simpa using h)]
      simp only [ih, List.filter_cons]
      rw [if_neg (by simpa using h)]

theorem addToGroup_groupItems (g : List (String × List Doc)) (k0 k : String) (item : Doc) :
    groupItems (addToGroup g k0 item) k =
      groupItems g k ++ (if k0 == k then [item] else []) := by
  induction g with
  | nil =>
    unfold addToGroup groupItems lookupGroup
    by_cases h : (k0 == k) = true <;> simp [List.find?, h]
  | cons hd rest ih =>
    obtain ⟨k', items⟩ := hd
    unfold addToGroup
    by_cases h1 : (k' == k0) = true
    · rw [if_pos h1]
      rw [beq_iff_eq] at h1
      by_cases h2 : (k' == k) = true
      · have hk0 : (k0 == k) = true := by
          rw [beq_iff_eq] at h2 ⊢
          rw [← h1, h2]
        simp [groupItems, lookupGroup, List.find?, h2, hk0]
      · have hk0 : (k0 == k) = false := by
          rw [beq_eq_false_iff_ne]
          simp only [beq_iff_eq] at h2
          rw [← h1]
          exact h2
        simp [groupItems, lookupGroup, List.find?, h2, hk0]
    · rw [if_neg h1]
      by_cases h2 : (k' == k) = true
      · have hk0 : (k0 == k) = false := by
          rw [beq_eq_false_iff_ne]
          rw [beq_iff_eq] at h2
          intro hh
          exact h1 (by rw [beq_iff_eq, h2, hh])
        simp [groupItems, lookupGroup, List.find?, h2, hk0]
      · simp only [groupItems, lookupGroup, List.find?] at ih ⊢
        simp only [show ((k', items).1 == k) = false from by simpa using h2]
        simpa using ih

theorem addToGroup_sumSizes (g : List (String × List Doc)) (k0 : String) (item : Doc) :
    sumSizes (addToGroup g k0 item) = sumSizes g + 1 := by
  induction g with
  | nil => simp [addToGroup, sumSizes]
  | cons hd rest ih =>
    obtain ⟨k', items⟩ := hd
    unfold addToGroup
    by_cases h : (k' == k0) = true
    · simp [h, sumSizes]
      omega
    · simp [h, sumSizes] at ih ⊢
      omega

theorem groupLoop_counts (items : List Doc) (g : List (String × List Doc)) (u : List Doc) :
    (groupLoop items (g, u)).2.length + sumSizes (groupLoop items (g, u)).1 =
      u.length + sumSizes g + items.length := by
  induction items generalizing g u with
  | nil => simp [groupLoop]
  | cons item rest ih =>
    unfold groupLoop
    by_cases h : (Doc.getD item "parentId" "unassigned" == "unassigned") = true
    · rw [if_pos h, ih]
      simp only [List.length_append, List.length_cons, List.length_nil]
      omega
    · rw [if_neg h, ih, addToGroup_sumSizes]
      simp only [List.length_cons]
      omega

theorem groupLoop_groups (items : List Doc) (g : List (String × List Doc)) (u : List Doc)
    (k : String) (hk : k ≠ "unassigned") :
    groupItems (groupLoop items (g, u)).1 k =
      groupItems g k ++ items.filter (fun i => i.getD "parentId" "unassigned" == k) := by
  induction items generalizing g u with
  | nil => simp [groupLoop]
  | cons item rest ih =>
    unfold groupLoop
    by_cases h : (Doc.getD item "parentId" "unassigned" == "unassigned") = true
    · rw [if_pos h, ih]
      have hnk : (Doc.getD item "parentId" "unassigned" == k) = false := by
        rw [beq_eq_false_iff_ne]
        rw [beq_iff_eq] at h
        rw [h]
        exact fun hh => hk hh.symm
      rw [List.filter_cons, if_neg (by simp [hnk])]
    · rw [if_neg h, ih, addToGroup_groupItems, List.filter_cons]
      by_cases h2 : (Doc.getD item "parentId" "unassigned" == k) = true
      · rw [if_pos (by simp [h2]), if_pos h2]
        simp
      · rw [if_neg (by simp [h2]), if_neg (by simpa using h2)]
        simp

/-- **C7.** `get_completed_tasks_for_date` partitions the completed items
by parent-container id: items whose parent is absent or the sentinel
`unassigned` form the unassigned bucket, every other item lands in the
bucket keyed by its parent id; both the grouped and the flat forms are
returned, and `total_completed` equals the flat length, which equals
`unassigned_count` plus the sum of all group sizes. -/
theorem completed_for_date_partition (date : String) (items : List Doc) :
    (get_completed_tasks_for_date date items).all_completed = items ∧
    (get_completed_tasks_for_date date items).total_completed = items.length ∧
    (get_completed_tasks_for_date date items).unassigned_completed =
      items.filter (fun i => i.getD "parentId" "unassigned" == "unassigned") ∧
    (∀ k : String, k ≠ "unassigned" →
      groupItems (get_completed_tasks_for_date date items).completed_by_project k =
        items.filter (fun i => i.getD "parentId" "unassigned" == k)) ∧
    (get_completed_tasks_for_date date items).total_completed =
      (get_completed_tasks_for_date date items).unassigned_count +
        sumSizes (get_completed_tasks_for_date date items).completed_by_project := by
  refine ⟨rfl, rfl, ?_, ?_, ?_⟩
  · show (groupLoop items ([], [])).2 = _
    rw [groupLoop_flat]
    rfl
  · intro k hk
    show groupItems (groupLoop items ([], [])).1 k = _
    rw [groupLoop_groups items [] [] k hk]
    rfl
  · show items.length = (groupLoop items ([], [])).2.length + sumSizes (groupLoop items ([], [])).1
    rw [groupLoop_counts]
    simp [sumSizes]

/-- Witness for C7: three items — one with no parent, one with the sentinel
parent, one under project `p1` — split into an unassigned bucket of two and
a `p1` bucket of one, with matching counts. -/
theorem completed_for_date_partition_witness :
    groupItems
        (get_completed_tasks_for_date "2025-06-13"
          [[("_id", "a")], [("_id", "b"), ("parentId", "unassigned")],
           [("_id", "c"), ("parentId", "p1")]]).completed_by_project "p1" =
      [[("_id", "c"), ("parentId", "p1")]] ∧
    (get_completed_tasks_for_date "2025-06-13"
        [[("_id", "a")], [("_id", "b"), ("parentId", "unassigned")],
         [("_id", "c"), ("parentId", "p1")]]).unassigned_count = 2 :=
  ⟨by
    rw [(completed_for_date_partition "2025-06-13"
        [[("_id", "a")], [("_id", "b"), ("parentId", "unassigned")],
         [("_id", "c"), ("parentId", "p1")]]).2.2.2.1 "p1" (by decide)]
    decide,
   by decide⟩

end Marvin
